import Mathlib

/-!
Verification of the church presentation timer (Timer.py).

The file shallowly embeds the parts of the program that the specification
talks about: the countdown state owned by `ChurchTimerApp`, the published
snapshot dictionary `timer_state`, the tick callback `_update_timer`, the
control operations `_start_timer`, `_stop_timer`, `_reset_timer`,
`_load_speaker_details`, the formatter `_display_time`, and the HTTP
handler `TimerRequestHandler.do_GET`.  Python integers are modelled as
`Int` (they are unbounded), the speaker roster as a `List`, and the shared
store as a field of the application state (there is a single writer, so
the lock is irrelevant to the functional behaviour).
-/

/-- A roster entry as built by `_add_update_speaker` (Timer.py lines 694-700).
`minutes` and `seconds` are validated there to be non-negative, so `Nat`. -/
structure Speaker where
  name : String
  title : String
  notes : String
  minutes : Nat
  seconds : Nat
deriving Repr, DecidableEq

/-- The shape of the shared `timer_state` dictionary (Timer.py lines 13-19):
exactly five fields. -/
structure TimerSnapshot where
  time_text : String
  speaker_name : String
  speaker_segment : String
  is_warning : Bool
  is_past_zero : Bool
deriving Repr, DecidableEq

/-- The initial value of the global `timer_state` dictionary
(Timer.py lines 13-19), served before any publish. -/
def timer_state_init : TimerSnapshot :=
  { time_text := "00:00"
    speaker_name := "N/A"
    speaker_segment := "N/A"
    is_warning := false
    is_past_zero := false }

/-- The mutable state of `ChurchTimerApp` relevant to the countdown
(Timer.py lines 282-287), plus the text currently shown on the timer label
(written only by `_display_time`, read by `_update_shared_timer_state`),
plus the published shared store. -/
structure AppState where
  time_left : Int
  running : Bool
  warning_threshold : Int
  speakers : List Speaker
  current_speaker_index : Int
  timer_label_text : String
  shared : TimerSnapshot
deriving Repr, DecidableEq

/-- Python list indexing `l[i]`: non-negative indices from the front,
negative indices from the back; `none` models an `IndexError`. -/
def py_get (l : List Speaker) (i : Int) : Option Speaker :=
  if 0 ≤ i then l.get? i.toNat
  else if 0 ≤ (l.length : Int) + i then l.get? ((l.length : Int) + i).toNat
  else none

/-- Placeholder speaker used to totalise lookups that would raise an
`IndexError` in Python; every theorem below that depends on a lookup
carries hypotheses under which the lookup succeeds. -/
def default_speaker : Speaker :=
  { name := "", title := "", notes := "", minutes := 0, seconds := 0 }

/-- The expression `self.speakers[self.current_speaker_index]` as it
appears in `_start_timer` (Timer.py line 614). -/
def active_speaker (st : AppState) : Speaker :=
  (py_get st.speakers st.current_speaker_index).getD default_speaker

/-- Python's `f"{n:02d}"` for a non-negative integer. -/
def pad_two (n : Nat) : String :=
  if n < 10 then "0" ++ toString n else toString n

/-- The text computed by `_display_time` (Timer.py lines 589-598). -/
def display_time_text (t : Int) : String :=
  if 0 ≤ t then
    pad_two (t.toNat / 60) ++ ":" ++ pad_two (t.toNat % 60)
  else
    "-" ++ pad_two (t.natAbs / 60) ++ ":" ++ pad_two (t.natAbs % 60)

/-- The state effect of `_display_time` (Timer.py lines 589-600): writes
the formatted time onto the timer label. -/
def display_time (st : AppState) : AppState :=
  { st with timer_label_text := display_time_text st.time_left }

/-- The speaker name and segment chosen by `_update_shared_timer_state`
(Timer.py lines 524-530). -/
def snapshot_names (st : AppState) : String × String :=
  if st.current_speaker_index ≠ -1 ∧ st.speakers ≠ [] then
    match py_get st.speakers st.current_speaker_index with
    | some sp => (sp.name, sp.title)
    | none => ("N/A", "N/A")
  else ("N/A", "N/A")

/-- The body of `_update_shared_timer_state` (Timer.py lines 522-537):
recomputes the five snapshot fields from the current state and writes
them to the shared store under the lock.  Note the strict lower bound
`0 < self.time_left` in the `is_warning` formula (line 536). -/
def update_shared_timer_state (st : AppState) : AppState :=
  { st with shared :=
    { time_text := st.timer_label_text
      speaker_name := (snapshot_names st).1
      speaker_segment := (snapshot_names st).2
      is_warning := decide (0 < st.time_left ∧ st.time_left ≤ st.warning_threshold)
      is_past_zero := decide (st.time_left < 0) } }

/-- The snapshot that `_update_shared_timer_state` would publish from a
given state.  A state has been "republished" exactly when its stored
snapshot equals this recomputation. -/
def snapshot_of (st : AppState) : TimerSnapshot :=
  (update_shared_timer_state st).shared

/-- One tick: the body of `_update_timer` (Timer.py lines 550-586).
While running it decrements `time_left`, rewrites the label, republishes,
and schedules itself again after 1000 ms; while stopped it does nothing
(and schedules nothing).  The colour assignments touch only widget
styling and are not part of the modelled state. -/
def update_timer (st : AppState) : AppState :=
  if st.running then
    update_shared_timer_state (display_time { st with time_left := st.time_left - 1 })
  else st

/-- The body of `_stop_timer` (Timer.py lines 625-630): clears `running`
and flips two buttons; it neither touches `time_left` nor republishes. -/
def stop_timer (st : AppState) : AppState :=
  { st with running := false }

/-- The body of `_load_speaker_details(index)` (Timer.py lines 794-832):
for a valid index, sets the current speaker and `time_left` from its
allocation; otherwise clears the current speaker and zeroes `time_left`;
in both branches reformats the label and republishes.  It never assigns
`self.running` (only the start/stop button widgets are reconfigured). -/
def load_speaker_details (index : Int) (st : AppState) : AppState :=
  let st1 :=
    if 0 ≤ index ∧ index < (st.speakers.length : Int) then
      let sp := (py_get st.speakers index).getD default_speaker
      display_time { st with current_speaker_index := index,
                             time_left := ((sp.minutes * 60 + sp.seconds : Nat) : Int) }
    else
      display_time { st with current_speaker_index := -1, time_left := 0 }
  update_shared_timer_state st1

/-- The body of `_reset_timer` (Timer.py lines 632-654): stops, then
restores `time_left` from the current speaker's allocation when the index
passes the guard on line 635, else clears to 0; republishes in both
branches (line 654). -/
def reset_timer (st : AppState) : AppState :=
  let st1 := stop_timer st
  let st2 :=
    if st1.current_speaker_index ≠ -1 ∧ st1.speakers ≠ [] ∧
        st1.current_speaker_index < (st1.speakers.length : Int) then
      let sp := (py_get st1.speakers st1.current_speaker_index).getD default_speaker
      display_time { st1 with time_left := ((sp.minutes * 60 + sp.seconds : Nat) : Int) }
    else
      display_time { st1 with current_speaker_index := -1, time_left := 0 }
  update_shared_timer_state st2

/-- The three error dialogs `_start_timer` can show before starting
(Timer.py lines 606, 612, 615). -/
inductive StartError where
  | NoActiveSpeaker
  | InvalidTimeEmptyRoster
  | ZeroAllocation
deriving Repr, DecidableEq

/-- The second half of `_start_timer` (Timer.py lines 611-619), reached
after the speaker-presence checks: the two `time_left == 0` error checks,
then `self.running = True` followed by the synchronous call
`self._update_timer()`. -/
def start_timer_loaded (st : AppState) : Option StartError × AppState :=
  if st.time_left = 0 ∧ st.speakers = [] then
    (some StartError.InvalidTimeEmptyRoster, st)
  else if st.time_left = 0 ∧ st.current_speaker_index ≠ -1 ∧
      (active_speaker st).minutes = 0 ∧ (active_speaker st).seconds = 0 then
    (some StartError.ZeroAllocation, st)
  else
    (none, update_timer { st with running := true })

/-- The body of `_start_timer` (Timer.py lines 602-623).  When already
running it does nothing.  Otherwise: error out when no speaker is loaded
and the roster is empty (line 605); auto-load the first roster speaker
when none is loaded (lines 608-609); then run the remaining checks and,
on success, set `running` and tick once synchronously. -/
def start_timer (st : AppState) : Option StartError × AppState :=
  if st.running then (none, st)
  else if st.current_speaker_index = -1 ∧ st.speakers = [] then
    (some StartError.NoActiveSpeaker, st)
  else if st.current_speaker_index = -1 then
    start_timer_loaded (load_speaker_details 0 st)
  else
    start_timer_loaded st

/-- The body of an HTTP response as the handler builds it: either the
JSON serialization of the shared `timer_state` dictionary (whose five
keys are exactly the five `TimerSnapshot` fields) or a plain text body. -/
inductive ResponseBody where
  | json (s : TimerSnapshot)
  | text (s : String)
deriving Repr, DecidableEq

/-- An HTTP response as assembled by `TimerRequestHandler.do_GET`:
status line plus the two headers it may send, plus the body. -/
structure HttpResponse where
  status : Nat
  content_type : Option String
  access_control_allow_origin : Option String
  body : ResponseBody
deriving Repr, DecidableEq

/-- The body of `TimerRequestHandler.do_GET` (Timer.py lines 24-38):
`/timer_state` yields 200 with JSON and CORS headers, serializing the
shared store read under the lock; any other path yields 404 with the
plain body `404 Not Found`. -/
def do_GET (path : String) (store : TimerSnapshot) : HttpResponse :=
  if path = "/timer_state" then
    { status := 200
      content_type := some "application/json"
      access_control_allow_origin := some "*"
      body := ResponseBody.json store }
  else
    { status := 404
      content_type := none
      access_control_allow_origin := none
      body := ResponseBody.text "404 Not Found" }

/-! Concrete states used by witnesses and counterexamples. -/

/-- Speaker with a five-minute allocation. -/
def spA : Speaker := { name := "Alice", title := "Opening", notes := "", minutes := 5, seconds := 0 }

/-- Speaker with a zero allocation. -/
def spZero : Speaker := { name := "Bob", title := "Word", notes := "", minutes := 0, seconds := 0 }

/-- The application state right after `__init__` sets the countdown
fields (Timer.py lines 282-287) and before any speaker is added:
no speaker, empty roster, stopped, threshold 60. -/
def base_state : AppState :=
  { time_left := 0
    running := false
    warning_threshold := 60
    speakers := []
    current_speaker_index := -1
    timer_label_text := "00:00"
    shared := timer_state_init }

/-- Running state: speaker `spA` loaded, 65 seconds left, running. -/
def st_running : AppState :=
  { base_state with speakers := [spA], current_speaker_index := 0,
                    time_left := 65, running := true }

/-- Stopped state: speaker `spA` loaded, 65 seconds left, not running. -/
def st_stopped : AppState :=
  { base_state with speakers := [spA], current_speaker_index := 0, time_left := 65 }

/-- State whose active speaker has a zero allocation while `time_left`
is 5 (for example after the running speaker was edited down to 00:00,
ticks continued, and the roster entry was swapped): exercises the gap
between the claimed and the implemented `ZeroAllocation` check. -/
def st_zero_alloc_time : AppState :=
  { base_state with speakers := [spZero], current_speaker_index := 0, time_left := 5 }

/-- State with a zero-allocation active speaker and `time_left = 0`,
exactly as `_load_speaker_details` leaves it after loading `spZero`. -/
def st_zero_alloc : AppState :=
  { base_state with speakers := [spZero], current_speaker_index := 0 }

/-- Stopped state ready to start: `spA` loaded with its full 300-second
allocation on the clock. -/
def st_ready : AppState :=
  { base_state with speakers := [spA], current_speaker_index := 0,
                    time_left := 300, timer_label_text := "05:00" }

/-- Running state used to load a speaker while the timer runs. -/
def st_running_load : AppState :=
  { base_state with speakers := [spA], current_speaker_index := 0,
                    time_left := 100, running := true }

/-- State whose stored snapshot disagrees with what a republish would
write, to observe whether an operation republishes. -/
def st_stale : AppState :=
  { base_state with speakers := [spA], current_speaker_index := 0, time_left := 7,
                    shared := { time_text := "99:99", speaker_name := "X",
                                speaker_segment := "Y", is_warning := true,
                                is_past_zero := true } }

/-- Idle state with a non-empty roster and no speaker loaded. -/
def st_idle_roster : AppState :=
  { base_state with speakers := [spA] }

/-! Helper lemmas shared by several claim theorems. -/

/-- Publishing leaves the store equal to the snapshot recomputed from the
resulting state: the recomputation ignores the stored snapshot. -/
theorem publish_shared_eq (st : AppState) :
    (update_shared_timer_state st).shared = snapshot_of (update_shared_timer_state st) := rfl

/-- A tick taken while running keeps the timer running and decrements
`time_left` by exactly one. -/
theorem update_timer_running (st : AppState) (h : st.running = true) :
    (update_timer st).running = true ∧ (update_timer st).time_left = st.time_left - 1 := by
  simp [update_timer, h, update_shared_timer_state, display_time]

/-- A tick taken while stopped changes nothing at all. -/
theorem update_timer_stopped (st : AppState) (h : st.running = false) :
    update_timer st = st := by
  simp [update_timer, h]

/-- A tick taken while running republishes the snapshot. -/
theorem update_timer_publishes (st : AppState) (h : st.running = true) :
    (update_timer st).shared = snapshot_of (update_timer st) := by
  simp only [update_timer, h, if_true]
  exact publish_shared_eq _

/-! Claim C1. -/

/-- C1 counterexample: the claim as stated is false at the published
snapshot of a state with `time_left = 0` and `warning_threshold = 60`
(the initial state): the code publishes `is_warning = false` there,
while the claim requires `is_warning` to be true because
`0 ≤ time_left ≤ warning_threshold` holds. -/
theorem claim_C1_counterexample :
    ¬ (((update_shared_timer_state base_state).shared.is_warning = true) ↔
        (0 ≤ base_state.time_left ∧ base_state.time_left ≤ base_state.warning_threshold)) := by
  decide

/-- C1 (amended): in every published snapshot, `is_warning` is true iff
`0 < time_left ≤ warning_threshold` (strict at 0), `is_past_zero` is true
iff `time_left < 0`, and the two flags are never both true. -/
theorem claim_C1_snapshot_flags (st : AppState) :
    ((update_shared_timer_state st).shared.is_warning = true ↔
      0 < st.time_left ∧ st.time_left ≤ st.warning_threshold) ∧
    ((update_shared_timer_state st).shared.is_past_zero = true ↔ st.time_left < 0) ∧
    ¬ ((update_shared_timer_state st).shared.is_warning = true ∧
       (update_shared_timer_state st).shared.is_past_zero = true) := by
  refine ⟨?_, ?_, ?_⟩ <;> simp [update_shared_timer_state]
  omega

/-! Claim C2. -/

/-- C2: while running, a run of `n` consecutive ticks decrements
`time_left` by exactly `n`; while stopped, any number of tick callbacks
leaves the whole state unchanged. -/
theorem claim_C2_ticks (st : AppState) (n : Nat) :
    (st.running = true → (update_timer^[n] st).time_left = st.time_left - n) ∧
    (st.running = false → update_timer^[n] st = st) := by
  induction n generalizing st with
  | zero => simp
  | succ n ih =>
    constructor
    · intro h
      rw [Function.iterate_succ_apply]
      have h1 := update_timer_running st h
      have h2 := (ih (update_timer st)).1 h1.1
      rw [h2, h1.2]
      push_cast
      ring
    · intro h
      rw [Function.iterate_succ_apply, update_timer_stopped st h]
      exact (ih st).2 h

/-- C2 witness: three ticks while running take 65 to 62; two tick
callbacks while stopped change nothing. -/
theorem claim_C2_witness :
    (update_timer^[3] st_running).time_left = 62 ∧
    update_timer^[2] st_stopped = st_stopped := by
  constructor
  · have h := (claim_C2_ticks st_running 3).1 rfl
    rw [h]; decide
  · exact (claim_C2_ticks st_stopped 2).2 rfl

/-! Claim C3. -/

/-- C3: the displayed text is the zero-padded MM:SS rendering of
`abs(time_left)`, prefixed with a minus sign exactly when `time_left`
is negative; in particular 125, -65 and 0 render as stated. -/
theorem claim_C3_display_format (t : Int) :
    display_time_text t =
      (if t < 0 then "-" ++ pad_two (t.natAbs / 60) ++ ":" ++ pad_two (t.natAbs % 60)
       else pad_two (t.natAbs / 60) ++ ":" ++ pad_two (t.natAbs % 60)) ∧
    display_time_text 125 = "02:05" ∧
    display_time_text (-65) = "-01:05" ∧
    display_time_text 0 = "00:00" := by
  refine ⟨?_, by decide, by decide, by decide⟩
  by_cases h : 0 ≤ t
  · have hne : ¬ t < 0 := by omega
    have habs : t.toNat = t.natAbs := by omega
    simp [display_time_text, h, hne, habs]
  · have hlt : t < 0 := by omega
    simp [display_time_text, h, hlt]

/-! Further helper lemmas for the start, load and reset operations. -/

/-- When stopped with a valid (non-negative, in-range) speaker index,
`_start_timer` skips the speaker-presence checks and the auto-load and
proceeds directly to the second half. -/
theorem start_timer_of_valid_idx (st : AppState) (hrun : st.running = false)
    (h0 : 0 ≤ st.current_speaker_index)
    (hlen : st.current_speaker_index < (st.speakers.length : Int)) :
    start_timer st = start_timer_loaded st := by
  have hne : st.speakers ≠ [] := by
    have hpos : 0 < st.speakers.length := by omega
    exact List.length_pos.mp hpos
  have hidx : st.current_speaker_index ≠ -1 := by omega
  simp [start_timer, hrun, hidx, hne]

/-- The second half of `_start_timer` never reports `NoActiveSpeaker`. -/
theorem start_timer_loaded_ne_no_active (st : AppState) :
    (start_timer_loaded st).1 ≠ some StartError.NoActiveSpeaker := by
  unfold start_timer_loaded
  split
  · simp
  · split <;> simp

/-- When the second half of `_start_timer` reports no error it sets
`running` and performs one synchronous tick. -/
theorem start_timer_loaded_ok (st : AppState)
    (hnone : (start_timer_loaded st).1 = none) :
    start_timer_loaded st = (none, update_timer { st with running := true }) := by
  by_cases h1 : st.time_left = 0 ∧ st.speakers = []
  · simp [start_timer_loaded, h1] at hnone
  · by_cases h2 : st.time_left = 0 ∧ st.current_speaker_index ≠ -1 ∧
        (active_speaker st).minutes = 0 ∧ (active_speaker st).seconds = 0
    · exfalso
      have hne : st.speakers ≠ [] := fun hh => h1 ⟨h2.1, hh⟩
      have hz : (start_timer_loaded st).1 = some StartError.ZeroAllocation := by
        simp [start_timer_loaded, hne, h2]
      rw [hz] at hnone
      simp at hnone
    · simp [start_timer_loaded, h1, h2]

/-- `_load_speaker_details` ends with a republish, in both branches. -/
theorem load_publishes (i : Int) (st : AppState) :
    (load_speaker_details i st).shared = snapshot_of (load_speaker_details i st) := by
  unfold load_speaker_details
  exact publish_shared_eq _

/-- `_reset_timer` ends with a republish, in both branches. -/
theorem reset_publishes (st : AppState) :
    (reset_timer st).shared = snapshot_of (reset_timer st) := by
  unfold reset_timer
  exact publish_shared_eq _

/-- Effect of `_load_speaker_details` on the countdown fields at a valid
index: `time_left` becomes the allocation, the index is recorded, and
`running` is left exactly as it was. -/
theorem load_speaker_valid (st : AppState) (i : Int) (sp : Speaker)
    (h0 : 0 ≤ i) (hget : st.speakers.get? i.toNat = some sp) :
    (load_speaker_details i st).time_left = ((sp.minutes * 60 + sp.seconds : Nat) : Int) ∧
    (load_speaker_details i st).current_speaker_index = i ∧
    (load_speaker_details i st).running = st.running := by
  have hlt : i.toNat < st.speakers.length := by
    by_contra hc
    push_neg at hc
    rw [List.get?_eq_none.mpr hc] at hget
    simp at hget
  have hlen : i < (st.speakers.length : Int) := by omega
  have hpy : py_get st.speakers i = some sp := by
    unfold py_get
    rw [if_pos h0]
    exact hget
  refine ⟨?_, ?_, ?_⟩ <;>
    simp [load_speaker_details, h0, hlen, hpy, display_time, update_shared_timer_state]

/-! Claim C4. -/

/-- C4 counterexample: in a state whose active speaker has a zero
allocation but whose `time_left` is 5, `start()` does not fail with
`ZeroAllocation` as the claim requires; it starts the timer, because the
implemented check (Timer.py line 614) additionally demands
`time_left == 0`. -/
theorem claim_C4_counterexample :
    active_speaker st_zero_alloc_time = spZero ∧
    spZero.minutes * 60 + spZero.seconds = 0 ∧
    (start_timer st_zero_alloc_time).1 = none ∧
    (start_timer st_zero_alloc_time).2.running = true := by
  decide

/-- C4 (amended): while stopped, `start()` fails with `NoActiveSpeaker`
when no speaker is loaded and the roster is empty, and fails with
`ZeroAllocation` when a speaker is loaded, `time_left` is 0, and that
speaker's allocated time is zero; on either failure it does not
transition to Running and leaves the whole state (in particular
`time_left`, `running` and `warning_threshold`) unchanged. -/
theorem claim_C4_start_failures (st : AppState) (hrun : st.running = false) :
    (st.current_speaker_index = -1 → st.speakers = [] →
      start_timer st = (some StartError.NoActiveSpeaker, st)) ∧
    (0 ≤ st.current_speaker_index →
      st.current_speaker_index < (st.speakers.length : Int) →
      st.time_left = 0 → (active_speaker st).minutes = 0 →
      (active_speaker st).seconds = 0 →
      start_timer st = (some StartError.ZeroAllocation, st)) := by
  constructor
  · intro h1 h2
    simp [start_timer, hrun, h1, h2]
  · intro h0 hlen ht hm hs
    rw [start_timer_of_valid_idx st hrun h0 hlen]
    have hne : st.speakers ≠ [] := by
      have hpos : 0 < st.speakers.length := by omega
      exact List.length_pos.mp hpos
    have hidx : st.current_speaker_index ≠ -1 := by omega
    simp [start_timer_loaded, ht, hne, hidx, hm, hs]

/-- C4 witness: the two failures at concrete states, with the state
returned unchanged. -/
theorem claim_C4_witness :
    start_timer base_state = (some StartError.NoActiveSpeaker, base_state) ∧
    start_timer st_zero_alloc = (some StartError.ZeroAllocation, st_zero_alloc) := by
  constructor
  · exact (claim_C4_start_failures base_state rfl).1 rfl rfl
  · exact (claim_C4_start_failures st_zero_alloc rfl).2
      (by decide) (by decide) rfl (by decide) (by decide)

/-! Claim C5. -/

/-- C5 counterexample: starting from a stopped state with 300 seconds on
the clock succeeds, but immediately after `start()` returns `time_left`
is 299, not 300: `_start_timer` calls `_update_timer()` synchronously
(Timer.py line 619), so the first decrement happens inside the `start()`
call, not one second later. -/
theorem claim_C5_counterexample :
    st_ready.time_left = 300 ∧
    (start_timer st_ready).1 = none ∧
    (start_timer st_ready).2.time_left = 299 := by
  decide

/-- C5 (amended): a successful `start()` transitions to Running and
executes the first tick synchronously before returning: `time_left` is
already decremented by 1 when `start()` returns, and the decremented
snapshot is published; subsequent ticks are then scheduled at one-second
intervals. -/
theorem claim_C5_start_ticks_immediately (st : AppState)
    (hrun : st.running = false) (h0 : 0 ≤ st.current_speaker_index)
    (hlen : st.current_speaker_index < (st.speakers.length : Int))
    (ht : st.time_left ≠ 0) :
    start_timer st = (none, update_timer { st with running := true }) ∧
    (start_timer st).2.running = true ∧
    (start_timer st).2.time_left = st.time_left - 1 ∧
    (start_timer st).2.shared = snapshot_of (start_timer st).2 := by
  have heq : start_timer st = (none, update_timer { st with running := true }) := by
    rw [start_timer_of_valid_idx st hrun h0 hlen]
    simp [start_timer_loaded, ht]
  refine ⟨heq, ?_, ?_, ?_⟩ <;> rw [heq]
  · exact (update_timer_running _ rfl).1
  · exact (update_timer_running _ rfl).2
  · exact update_timer_publishes _ rfl

/-- C5 witness: the amended behaviour at the concrete ready state. -/
theorem claim_C5_witness :
    (start_timer st_ready).2.running = true ∧
    (start_timer st_ready).2.time_left = 299 := by
  have h := claim_C5_start_ticks_immediately st_ready rfl (by decide) (by decide) (by decide)
  refine ⟨h.2.1, ?_⟩
  rw [h.2.2.1]
  decide

/-! Claim C6. -/

/-- C6 counterexample: loading a speaker while the timer is running
(reachable by updating the currently loaded speaker through
`_add_update_speaker`, Timer.py lines 689-690) leaves `running` true:
`_load_speaker_details` never assigns `self.running`, so the claimed
"forces the scheduler state to Stopped" is false and the tick loop keeps
going. -/
theorem claim_C6_counterexample :
    st_running_load.running = true ∧
    (load_speaker_details 0 st_running_load).running = true := by
  decide

/-- C6 (amended): loading a speaker, from any state (including while
Running), sets `time_left` to that speaker's allocation
(minutes*60 + seconds), records the speaker index, and republishes a
snapshot, but leaves `running` unchanged: only the start/stop button
widgets are set to their stopped configuration, the scheduler state is
not forced to Stopped. -/
theorem claim_C6_load_speaker (st : AppState) (i : Int) (sp : Speaker)
    (h0 : 0 ≤ i) (hget : st.speakers.get? i.toNat = some sp) :
    (load_speaker_details i st).time_left = ((sp.minutes * 60 + sp.seconds : Nat) : Int) ∧
    (load_speaker_details i st).current_speaker_index = i ∧
    (load_speaker_details i st).running = st.running ∧
    (load_speaker_details i st).shared = snapshot_of (load_speaker_details i st) := by
  have h := load_speaker_valid st i sp h0 hget
  exact ⟨h.1, h.2.1, h.2.2, load_publishes i st⟩

/-- C6 witness: loading `spA` into the running state sets the clock to
its 300-second allocation while `running` stays true. -/
theorem claim_C6_witness :
    (load_speaker_details 0 st_running_load).time_left = 300 ∧
    (load_speaker_details 0 st_running_load).running = true := by
  have h := claim_C6_load_speaker st_running_load 0 spA (by decide) (by decide)
  constructor
  · rw [h.1]; decide
  · rw [h.2.2.1]; decide

/-! Claim C7. -/

/-- C7 counterexample: `stop()` does not republish.  On a state whose
stored snapshot disagrees with the snapshot a republish would write,
`_stop_timer` leaves the stale snapshot in the store, contradicting the
claim that every state-affecting event, stop included, republishes. -/
theorem claim_C7_counterexample :
    (stop_timer st_stale).shared ≠ snapshot_of (stop_timer st_stale) := by
  decide

/-- C7 (amended): tick (while running), load and reset each recompute
and republish the snapshot, and a successful `start()` from a stopped
state republishes through its immediate synchronous first tick; but
`stop()` republishes nothing: it only clears `running` (which is not a
snapshot field), leaving the stored snapshot exactly as it was. -/
theorem claim_C7_republish (st : AppState) (i : Int) :
    (st.running = true → (update_timer st).shared = snapshot_of (update_timer st)) ∧
    (load_speaker_details i st).shared = snapshot_of (load_speaker_details i st) ∧
    (reset_timer st).shared = snapshot_of (reset_timer st) ∧
    (st.running = false → (start_timer st).1 = none →
      (start_timer st).2.shared = snapshot_of (start_timer st).2) ∧
    stop_timer st = { st with running := false } := by
  refine ⟨update_timer_publishes st, load_publishes i st, reset_publishes st, ?_, rfl⟩
  intro hrun hnone
  by_cases hempty : st.current_speaker_index = -1 ∧ st.speakers = []
  · simp [start_timer, hrun, hempty] at hnone
  · by_cases hidx : st.current_speaker_index = -1
    · have hne : st.speakers ≠ [] := fun hh => hempty ⟨hidx, hh⟩
      have heq : start_timer st = start_timer_loaded (load_speaker_details 0 st) := by
        simp [start_timer, hrun, hidx, hne]
      rw [heq] at hnone ⊢
      rw [start_timer_loaded_ok _ hnone]
      exact update_timer_publishes _ rfl
    · have heq : start_timer st = start_timer_loaded st := by
        simp [start_timer, hrun, hempty, hidx]
      rw [heq] at hnone ⊢
      rw [start_timer_loaded_ok _ hnone]
      exact update_timer_publishes _ rfl

/-- C7 witness: a tick of the running state republishes, and a
successful start from the ready state republishes. -/
theorem claim_C7_witness :
    (update_timer st_running_load).shared = snapshot_of (update_timer st_running_load) ∧
    (start_timer st_ready).2.shared = snapshot_of (start_timer st_ready).2 := by
  constructor
  · exact (claim_C7_republish st_running_load 0).1 rfl
  · exact (claim_C7_republish st_ready 0).2.2.2.1 rfl (by decide)

/-! Claim C8. -/

/-- C8: `reset()` called while stopped sets `time_left` exactly to the
active speaker's allocation `allocated_minutes*60 + allocated_seconds`,
or to 0 when no speaker is loaded, and republishes a snapshot in either
case. -/
theorem claim_C8_reset (st : AppState) (_hrun : st.running = false) :
    (st.current_speaker_index = -1 →
      (reset_timer st).time_left = 0 ∧
      (reset_timer st).shared = snapshot_of (reset_timer st)) ∧
    (∀ sp : Speaker, 0 ≤ st.current_speaker_index →
      st.speakers.get? st.current_speaker_index.toNat = some sp →
      (reset_timer st).time_left = ((sp.minutes * 60 + sp.seconds : Nat) : Int) ∧
      (reset_timer st).shared = snapshot_of (reset_timer st)) := by
  constructor
  · intro hidx
    refine ⟨?_, reset_publishes st⟩
    simp [reset_timer, stop_timer, hidx, display_time, update_shared_timer_state]
  · intro sp h0 hget
    refine ⟨?_, reset_publishes st⟩
    have hlt : st.current_speaker_index.toNat < st.speakers.length := by
      by_contra hc
      push_neg at hc
      rw [List.get?_eq_none.mpr hc] at hget
      simp at hget
    have hlen : st.current_speaker_index < (st.speakers.length : Int) := by omega
    have hidx : st.current_speaker_index ≠ -1 := by omega
    have hne : st.speakers ≠ [] := by
      have hpos : 0 < st.speakers.length := by omega
      exact List.length_pos.mp hpos
    have hpy : py_get st.speakers st.current_speaker_index = some sp := by
      unfold py_get
      rw [if_pos h0]
      exact hget
    simp [reset_timer, stop_timer, hidx, hne, hlen, hpy, display_time,
          update_shared_timer_state]

/-- C8 witness: resetting the idle empty state clears to 0; resetting
the stopped state with `spA` loaded restores its 300-second allocation. -/
theorem claim_C8_witness :
    (reset_timer base_state).time_left = 0 ∧
    (reset_timer st_stopped).time_left = 300 := by
  constructor
  · exact ((claim_C8_reset base_state rfl).1 rfl).1
  · have h := (claim_C8_reset st_stopped rfl).2 spA (by decide) (by decide)
    rw [h.1]; decide

/-! Claim C9. -/

/-- C9: a GET for `/timer_state` answers 200 with content type JSON and
`Access-Control-Allow-Origin: *`, serializing exactly the five snapshot
fields of the shared store; a GET for any other path answers 404 with
body `404 Not Found`; and the initial store served before any publish is
the default snapshot with time `00:00`, names `N/A` and both flags
false. -/
theorem claim_C9_http (s : TimerSnapshot) (p : String) (hp : p ≠ "/timer_state") :
    do_GET "/timer_state" s =
      { status := 200, content_type := some "application/json",
        access_control_allow_origin := some "*", body := ResponseBody.json s } ∧
    do_GET p s =
      { status := 404, content_type := none, access_control_allow_origin := none,
        body := ResponseBody.text "404 Not Found" } ∧
    timer_state_init =
      { time_text := "00:00", speaker_name := "N/A", speaker_segment := "N/A",
        is_warning := false, is_past_zero := false } := by
  refine ⟨by simp [do_GET], ?_, rfl⟩
  simp [do_GET, hp]

/-- C9 witness: the 404 branch at the concrete path `/other`, serving
the initial store. -/
theorem claim_C9_witness :
    do_GET "/other" timer_state_init =
      { status := 404, content_type := none, access_control_allow_origin := none,
        body := ResponseBody.text "404 Not Found" } :=
  (claim_C9_http timer_state_init "/other" (by decide)).2.1

/-! Claim C10. -/

/-- C10: when no speaker is loaded but the roster is non-empty,
`start()` first loads the roster's first speaker, setting `time_left` to
that speaker's allocation, and then proceeds with the remaining start
checks; it does not fail with `NoActiveSpeaker`. -/
theorem claim_C10_autoload (st : AppState) (sp : Speaker) (rest : List Speaker)
    (hrun : st.running = false) (hidx : st.current_speaker_index = -1)
    (hsp : st.speakers = sp :: rest) :
    start_timer st = start_timer_loaded (load_speaker_details 0 st) ∧
    (load_speaker_details 0 st).time_left = ((sp.minutes * 60 + sp.seconds : Nat) : Int) ∧
    (load_speaker_details 0 st).current_speaker_index = 0 ∧
    (start_timer st).1 ≠ some StartError.NoActiveSpeaker := by
  have hne : st.speakers ≠ [] := by
    rw [hsp]; exact List.cons_ne_nil sp rest
  have heq : start_timer st = start_timer_loaded (load_speaker_details 0 st) := by
    simp [start_timer, hrun, hidx, hne]
  have hget : st.speakers.get? (0 : Int).toNat = some sp := by
    rw [hsp]; rfl
  have hload := load_speaker_valid st 0 sp (by omega) hget
  refine ⟨heq, hload.1, hload.2.1, ?_⟩
  rw [heq]
  exact start_timer_loaded_ne_no_active _

/-- C10 witness: starting from the idle state with `spA` on the roster
auto-loads it (clock set to 300) instead of failing. -/
theorem claim_C10_witness :
    start_timer st_idle_roster = start_timer_loaded (load_speaker_details 0 st_idle_roster) ∧
    (load_speaker_details 0 st_idle_roster).time_left = 300 ∧
    (start_timer st_idle_roster).1 ≠ some StartError.NoActiveSpeaker := by
  have h := claim_C10_autoload st_idle_roster spA [] rfl rfl rfl
  refine ⟨h.1, ?_, h.2.2.2⟩
  rw [h.2.1]; decide
